import Mathlib

/-!
Shallow embedding of `zenml/core/local_service.py`: the `LocalService`
registry that tracks providers, artifact stores and metadata stores in
three key-indexed mappings, persisting itself after every mutation.

Mappings are modelled as insertion-ordered association lists (the Python
`dict` holds at most one binding per key; every state reachable through
the registry's own operations has pairwise-distinct keys, and the helper
functions below agree with `dict` semantics on such lists).  Raised
exceptions become `Except.error` values; the component-level and
persistence-level side effects of an operation (`component.update()`,
`component.delete()`, `self.update()`, `super().delete()`) are recorded
in an explicit effect trace so that ordering and frame claims can be
stated.
-/

set_option autoImplicit false

namespace Zenml

universe u

/-- Payload of a `BaseProvider`: providers are stored directly in the
mapping as opaque values, so one abstract field suffices. -/
structure BaseProvider where
  data : Nat
deriving DecidableEq, Repr

/-- `mapping_utils.UUIDSourceTuple`: the stored reference for an artifact
or metadata store — its instance id and the source locator of its class. -/
structure UUIDSourceTuple where
  uuid : Nat
  source : String
deriving DecidableEq, Repr

/-- An artifact store instance: its instance id and its implementing
class (from which `source_utils.resolve_class` derives the locator). -/
structure BaseArtifactStore where
  uuid : Nat
  cls : String
deriving DecidableEq, Repr

/-- A metadata store instance: its instance id and its implementing
class. -/
structure BaseMetadataStore where
  uuid : Nat
  cls : String
deriving DecidableEq, Repr

/-- The two exception types raised by `LocalService`.  The
`DoesNotExistException` message is built from the offending key and the
mapping's current keys (`f"... key `{key}` does not exist. Available
keys: {map.keys()}"`), so the error carries both structurally. -/
inductive ZenError where
  | alreadyExists (key : String)
  | doesNotExist (key : String) (availableKeys : List String)
deriving DecidableEq, Repr

/-- External side effects an operation performs, in order:
`componentUpdate u c` is a component's own `update()` (persisting its
state), `componentDelete u c` its own `delete()` (destroying its backing
storage), `registryPersist` is `self.update()` (re-persisting the whole
registry file), `registryRecordDelete` is `super().delete()` (removing
the registry's own persisted record). -/
inductive Effect where
  | componentUpdate (uuid : Nat) (source : String)
  | componentDelete (uuid : Nat) (source : String)
  | registryPersist
  | registryRecordDelete
deriving DecidableEq, Repr

/-! ### Python `dict` operations on association lists -/

/-- `d.get(k)` / `d[k]`: the value bound to `k`, if any. -/
def dictLookup {α : Type u} : List (String × α) → String → Option α
  | [], _ => none
  | (k', v) :: rest, k => if k' = k then some v else dictLookup rest k

/-- `k in d`. -/
def dictContains {α : Type u} (m : List (String × α)) (k : String) : Bool :=
  (dictLookup m k).isSome

/-- `d[k] = v`: rebinds `k` if present, otherwise appends the new binding
at the end (Python dicts are insertion-ordered). -/
def dictSet {α : Type u} : List (String × α) → String → α → List (String × α)
  | [], k, v => [(k, v)]
  | (k', v') :: rest, k, v =>
      if k' = k then (k, v) :: rest else (k', v') :: dictSet rest k v

/-- `del d[k]`: removes the binding of `k` (on the unique-key lists that
`dict` produces, filtering equals deleting the one binding). -/
def dictDelete {α : Type u} (m : List (String × α)) (k : String) :
    List (String × α) :=
  m.filter (fun kv => kv.1 ≠ k)

/-- `d.keys()`, in insertion order. -/
def dictKeys {α : Type u} (m : List (String × α)) : List String :=
  m.map Prod.fst

/-! ### The registry state -/

/-- The `LocalService` component: three key-indexed mappings (plus the
orchestrator mapping, unused by the current operations). -/
structure LocalService where
  providers : List (String × BaseProvider)
  metadata_store_map : List (String × UUIDSourceTuple)
  artifact_store_map : List (String × UUIDSourceTuple)
  orchestrator_map : List (String × UUIDSourceTuple)
deriving DecidableEq, Repr

/-- The registry with all four mappings empty. -/
def emptyService : LocalService :=
  { providers := [], metadata_store_map := [],
    artifact_store_map := [], orchestrator_map := [] }

/-! ### Modelled collaborators (not under `src/`) -/

/-- Modelled from the spec: `source_utils.resolve_class` returns a stable,
resolvable source locator for a component's implementing type; locators
are modelled as the type names themselves. -/
def resolve_class (cls : String) : String := cls

/-- Modelled from the spec: `mapping_utils.get_component_from_key` looks a
key up in a mapping of stored references and reconstructs a live
component instance from the (instance id, source locator) pair; `none`
when the key is absent.  `mk` is the Component Resolver's instantiation
of the class the locator points to. -/
def get_component_from_key {α : Type u} (mk : Nat → String → α)
    (key : String) (mapping : List (String × UUIDSourceTuple)) : Option α :=
  (dictLookup mapping key).map fun t => mk t.uuid t.source

/-- Modelled from the spec: `mapping_utils.get_components_from_store`
reconstructs exactly one live instance per stored reference, keyed by the
same logical key (the directory-name argument of the Python function only
locates the components' files and plays no role here). -/
def get_components_from_store {α : Type u} (mk : Nat → String → α)
    (mapping : List (String × UUIDSourceTuple)) : List (String × α) :=
  mapping.map fun kv => (kv.1, mk kv.2.uuid kv.2.source)

/-- `LocalService.metadata_stores`: all registered metadata stores,
materialized from their stored references. -/
def metadata_stores (s : LocalService) : List (String × BaseMetadataStore) :=
  get_components_from_store BaseMetadataStore.mk s.metadata_store_map

/-- `LocalService.artifact_stores`: all registered artifact stores,
materialized from their stored references. -/
def artifact_stores (s : LocalService) : List (String × BaseArtifactStore) :=
  get_components_from_store BaseArtifactStore.mk s.artifact_store_map

/-- `LocalService.orchestrators`: always the empty mapping in the current
design. -/
def orchestrators (_s : LocalService) : List (String × String) := []

/-! ### Operations.  Each returns (result, final state, effect trace). -/

/-- `LocalService.get_provider`. -/
def get_provider (s : LocalService) (key : String) :
    Except ZenError BaseProvider × LocalService × List Effect :=
  match dictLookup s.providers key with
  | none =>
      (Except.error (ZenError.doesNotExist key (dictKeys s.providers)), s, [])
  | some p => (Except.ok p, s, [])

/-- `LocalService.register_provider`. -/
def register_provider (s : LocalService) (key : String)
    (provider : BaseProvider) :
    Except ZenError Unit × LocalService × List Effect :=
  if dictContains s.providers key then
    (Except.error (ZenError.alreadyExists key), s, [])
  else
    (Except.ok (),
     { s with providers := dictSet s.providers key provider },
     [Effect.registryPersist])

/-- `LocalService.delete_provider`: checks existence via `get_provider`,
then removes the binding and re-persists. -/
def delete_provider (s : LocalService) (key : String) :
    Except ZenError Unit × LocalService × List Effect :=
  match get_provider s key with
  | (Except.error e, s1, tr) => (Except.error e, s1, tr)
  | (Except.ok _, s1, tr) =>
      (Except.ok (),
       { s1 with providers := dictDelete s1.providers key },
       tr ++ [Effect.registryPersist])

/-- `LocalService.get_artifact_store`: membership check (`key not in
self.artifact_store_map`, which is exactly when `get_component_from_key`
finds nothing), then resolution of the stored reference. -/
def get_artifact_store (s : LocalService) (key : String) :
    Except ZenError BaseArtifactStore × LocalService × List Effect :=
  match get_component_from_key BaseArtifactStore.mk key s.artifact_store_map with
  | none =>
      (Except.error (ZenError.doesNotExist key (dictKeys s.artifact_store_map)),
       s, [])
  | some a => (Except.ok a, s, [])

/-- `LocalService.register_artifact_store`: uniqueness check, then the
store's own `update()`, then recording (uuid, resolved source) under the
key, then `self.update()`. -/
def register_artifact_store (s : LocalService) (key : String)
    (artifact_store : BaseArtifactStore) :
    Except ZenError Unit × LocalService × List Effect :=
  if dictContains s.artifact_store_map key then
    (Except.error (ZenError.alreadyExists key), s, [])
  else
    let source := resolve_class artifact_store.cls
    let m := dictSet s.artifact_store_map key
      (UUIDSourceTuple.mk artifact_store.uuid source)
    (Except.ok (),
     { s with artifact_store_map := m },
     [Effect.componentUpdate artifact_store.uuid artifact_store.cls,
      Effect.registryPersist])

/-- `LocalService.delete_artifact_store`: existence check via
`get_artifact_store`, then the store's own `delete()`, then removal of
the binding, then `self.update()`. -/
def delete_artifact_store (s : LocalService) (key : String) :
    Except ZenError Unit × LocalService × List Effect :=
  match get_artifact_store s key with
  | (Except.error e, s1, tr) => (Except.error e, s1, tr)
  | (Except.ok a, s1, tr) =>
      (Except.ok (),
       { s1 with artifact_store_map := dictDelete s1.artifact_store_map key },
       tr ++ [Effect.componentDelete a.uuid a.cls, Effect.registryPersist])

/-- `LocalService.get_metadata_store`. -/
def get_metadata_store (s : LocalService) (key : String) :
    Except ZenError BaseMetadataStore × LocalService × List Effect :=
  match get_component_from_key BaseMetadataStore.mk key s.metadata_store_map with
  | none =>
      (Except.error (ZenError.doesNotExist key (dictKeys s.metadata_store_map)),
       s, [])
  | some m => (Except.ok m, s, [])

/-- `LocalService.register_metadata_store`. -/
def register_metadata_store (s : LocalService) (key : String)
    (metadata_store : BaseMetadataStore) :
    Except ZenError Unit × LocalService × List Effect :=
  if dictContains s.metadata_store_map key then
    (Except.error (ZenError.alreadyExists key), s, [])
  else
    let source := resolve_class metadata_store.cls
    let m := dictSet s.metadata_store_map key
      (UUIDSourceTuple.mk metadata_store.uuid source)
    (Except.ok (),
     { s with metadata_store_map := m },
     [Effect.componentUpdate metadata_store.uuid metadata_store.cls,
      Effect.registryPersist])

/-- `LocalService.delete_metadata_store`. -/
def delete_metadata_store (s : LocalService) (key : String) :
    Except ZenError Unit × LocalService × List Effect :=
  match get_metadata_store s key with
  | (Except.error e, s1, tr) => (Except.error e, s1, tr)
  | (Except.ok m, s1, tr) =>
      (Except.ok (),
       { s1 with metadata_store_map := dictDelete s1.metadata_store_map key },
       tr ++ [Effect.componentDelete m.uuid m.cls, Effect.registryPersist])

/-- `LocalService.delete`: the whole-registry teardown.  Deletes every
materialized metadata store, then every materialized artifact store (the
orchestrator loop is commented out in the source), then calls
`super().delete()`, which destroys the registry's own persisted record.
The in-memory mappings are not touched. -/
def delete (s : LocalService) : LocalService × List Effect :=
  (s,
   (metadata_stores s).map (fun kv => Effect.componentDelete kv.2.uuid kv.2.cls)
     ++ (artifact_stores s).map
          (fun kv => Effect.componentDelete kv.2.uuid kv.2.cls)
     ++ [Effect.registryRecordDelete])

/-! ### Modelled persistence layer

The Persistence Backend and the components' own storage are not under
`src/`; they are modelled from the spec so that whole-registry teardown
and the reload contract can be stated. -/

/-- Modelled from the spec: the world outside the live registry object —
the registry's persisted record (the contents of its serialization file,
when present) and the set of component instance ids that currently have
backing storage of their own. -/
structure World where
  service : LocalService
  persistedRecord : Option LocalService
  componentStorage : List Nat
deriving DecidableEq, Repr

/-- Modelled from the spec: interpretation of one side effect against the
Persistence Backend and the components' storage.  `registryPersist`
saves the registry state current at that point, `registryRecordDelete`
removes the registry's persisted record, `componentUpdate` /
`componentDelete` create and destroy a component's own backing storage,
identified by its instance id. -/
def applyEffect (current : LocalService) (w : World) (e : Effect) : World :=
  match e with
  | Effect.componentUpdate u _ =>
      { w with componentStorage :=
          if u ∈ w.componentStorage then w.componentStorage
          else u :: w.componentStorage }
  | Effect.componentDelete u _ =>
      { w with componentStorage := w.componentStorage.filter (fun x => x ≠ u) }
  | Effect.registryPersist => { w with persistedRecord := some current }
  | Effect.registryRecordDelete => { w with persistedRecord := none }

/-- Run the whole-registry teardown `delete` against the world: the live
state is unchanged by the source and every effect in the trace is
interpreted in order. -/
def run_delete_all (w : World) : World :=
  let p := delete w.service
  p.2.foldl (applyEffect p.1) { w with service := p.1 }

/-- Modelled from the spec: lifecycle — the Registry Store is created
from whatever persisted file exists, or empty if none exists. -/
def reload (w : World) : LocalService :=
  w.persistedRecord.getD emptyService

/-! ### Helper lemmas about the dict operations -/

theorem dictLookup_dictSet_self {α : Type u} (m : List (String × α))
    (k : String) (v : α) : dictLookup (dictSet m k v) k = some v := by
  induction m with
  | nil => simp [dictSet, dictLookup]
  | cons kv rest ih =>
      cases kv with
      | mk k' v' =>
          by_cases h : k' = k
          · simp [dictSet, dictLookup, h]
          · simp [dictSet, dictLookup, h, ih]

theorem dictLookup_dictDelete_self {α : Type u} (m : List (String × α))
    (k : String) : dictLookup (dictDelete m k) k = none := by
  induction m with
  | nil => rfl
  | cons kv rest ih =>
      cases kv with
      | mk k' v' =>
          by_cases h : k' = k
          · simpa [dictDelete, List.filter, h] using ih
          · simpa [dictDelete, List.filter, dictLookup, h] using ih

/-- `Except` values as sums, to derive decidable equality. -/
def exceptToSum {ε α : Type u} : Except ε α → Sum ε α
  | Except.error e => Sum.inl e
  | Except.ok a => Sum.inr a

instance {ε α : Type u} [DecidableEq ε] [DecidableEq α] :
    DecidableEq (Except ε α) := fun x y =>
  decidable_of_iff (exceptToSum x = exceptToSum y)
    (by cases x <;> cases y <;> simp [exceptToSum])

/-! ### Reduction lemmas for the operations -/

theorem get_provider_of_some {s : LocalService} {k : String}
    {v : BaseProvider} (h : dictLookup s.providers k = some v) :
    get_provider s k = (Except.ok v, s, []) := by
  simp [get_provider, h]

theorem get_provider_of_none {s : LocalService} {k : String}
    (h : dictLookup s.providers k = none) :
    get_provider s k =
      (Except.error (ZenError.doesNotExist k (dictKeys s.providers)), s, []) := by
  simp [get_provider, h]

theorem get_artifact_store_of_some {s : LocalService} {k : String}
    {t : UUIDSourceTuple} (h : dictLookup s.artifact_store_map k = some t) :
    get_artifact_store s k =
      (Except.ok (BaseArtifactStore.mk t.uuid t.source), s, []) := by
  simp [get_artifact_store, get_component_from_key, h]

theorem get_artifact_store_of_none {s : LocalService} {k : String}
    (h : dictLookup s.artifact_store_map k = none) :
    get_artifact_store s k =
      (Except.error (ZenError.doesNotExist k (dictKeys s.artifact_store_map)),
       s, []) := by
  simp [get_artifact_store, get_component_from_key, h]

theorem get_metadata_store_of_some {s : LocalService} {k : String}
    {t : UUIDSourceTuple} (h : dictLookup s.metadata_store_map k = some t) :
    get_metadata_store s k =
      (Except.ok (BaseMetadataStore.mk t.uuid t.source), s, []) := by
  simp [get_metadata_store, get_component_from_key, h]

theorem get_metadata_store_of_none {s : LocalService} {k : String}
    (h : dictLookup s.metadata_store_map k = none) :
    get_metadata_store s k =
      (Except.error (ZenError.doesNotExist k (dictKeys s.metadata_store_map)),
       s, []) := by
  simp [get_metadata_store, get_component_from_key, h]

theorem register_provider_of_some {s : LocalService} {k : String}
    {v1 : BaseProvider} (p : BaseProvider)
    (h : dictLookup s.providers k = some v1) :
    register_provider s k p =
      (Except.error (ZenError.alreadyExists k), s, []) := by
  simp [register_provider, dictContains, h]

theorem register_provider_of_none {s : LocalService} {k : String}
    (p : BaseProvider) (h : dictLookup s.providers k = none) :
    register_provider s k p =
      (Except.ok (), { s with providers := dictSet s.providers k p },
       [Effect.registryPersist]) := by
  simp [register_provider, dictContains, h]

theorem register_artifact_store_of_some {s : LocalService} {k : String}
    {t : UUIDSourceTuple} (a : BaseArtifactStore)
    (h : dictLookup s.artifact_store_map k = some t) :
    register_artifact_store s k a =
      (Except.error (ZenError.alreadyExists k), s, []) := by
  simp [register_artifact_store, dictContains, h]

theorem register_artifact_store_of_none {s : LocalService} {k : String}
    (a : BaseArtifactStore) (h : dictLookup s.artifact_store_map k = none) :
    register_artifact_store s k a =
      (Except.ok (),
       { s with artifact_store_map :=
           dictSet s.artifact_store_map k (UUIDSourceTuple.mk a.uuid (resolve_class a.cls)) },
       [Effect.componentUpdate a.uuid a.cls, Effect.registryPersist]) := by
  simp [register_artifact_store, dictContains, h]

theorem register_metadata_store_of_some {s : LocalService} {k : String}
    {t : UUIDSourceTuple} (m : BaseMetadataStore)
    (h : dictLookup s.metadata_store_map k = some t) :
    register_metadata_store s k m =
      (Except.error (ZenError.alreadyExists k), s, []) := by
  simp [register_metadata_store, dictContains, h]

theorem register_metadata_store_of_none {s : LocalService} {k : String}
    (m : BaseMetadataStore) (h : dictLookup s.metadata_store_map k = none) :
    register_metadata_store s k m =
      (Except.ok (),
       { s with metadata_store_map :=
           dictSet s.metadata_store_map k (UUIDSourceTuple.mk m.uuid (resolve_class m.cls)) },
       [Effect.componentUpdate m.uuid m.cls, Effect.registryPersist]) := by
  simp [register_metadata_store, dictContains, h]

theorem delete_provider_of_some {s : LocalService} {k : String}
    {v : BaseProvider} (h : dictLookup s.providers k = some v) :
    delete_provider s k =
      (Except.ok (), { s with providers := dictDelete s.providers k },
       [Effect.registryPersist]) := by
  simp [delete_provider, get_provider_of_some h]

theorem delete_provider_of_none {s : LocalService} {k : String}
    (h : dictLookup s.providers k = none) :
    delete_provider s k =
      (Except.error (ZenError.doesNotExist k (dictKeys s.providers)), s, []) := by
  simp [delete_provider, get_provider_of_none h]

theorem delete_artifact_store_of_some {s : LocalService} {k : String}
    {t : UUIDSourceTuple} (h : dictLookup s.artifact_store_map k = some t) :
    delete_artifact_store s k =
      (Except.ok (),
       { s with artifact_store_map := dictDelete s.artifact_store_map k },
       [Effect.componentDelete t.uuid t.source, Effect.registryPersist]) := by
  simp [delete_artifact_store, get_artifact_store_of_some h]

theorem delete_artifact_store_of_none {s : LocalService} {k : String}
    (h : dictLookup s.artifact_store_map k = none) :
    delete_artifact_store s k =
      (Except.error (ZenError.doesNotExist k (dictKeys s.artifact_store_map)),
       s, []) := by
  simp [delete_artifact_store, get_artifact_store_of_none h]

theorem delete_metadata_store_of_some {s : LocalService} {k : String}
    {t : UUIDSourceTuple} (h : dictLookup s.metadata_store_map k = some t) :
    delete_metadata_store s k =
      (Except.ok (),
       { s with metadata_store_map := dictDelete s.metadata_store_map k },
       [Effect.componentDelete t.uuid t.source, Effect.registryPersist]) := by
  simp [delete_metadata_store, get_metadata_store_of_some h]

theorem delete_metadata_store_of_none {s : LocalService} {k : String}
    (h : dictLookup s.metadata_store_map k = none) :
    delete_metadata_store s k =
      (Except.error (ZenError.doesNotExist k (dictKeys s.metadata_store_map)),
       s, []) := by
  simp [delete_metadata_store, get_metadata_store_of_none h]

/-! ### Claims -/

/-- C1: for every key already registered in a mapping, the corresponding
register operation (`register_provider`, `register_artifact_store`,
`register_metadata_store`) raises `AlreadyExistsException` and leaves the
registry state — in particular that mapping — unchanged, with no side
effect; a subsequent get of the key still returns the originally
registered value (for stores, the instance resolved from the stored
reference). -/
theorem C1_register_existing_key_fails_unchanged :
    (∀ (s : LocalService) (k : String) (v1 v2 : BaseProvider),
        dictLookup s.providers k = some v1 →
        register_provider s k v2 =
            (Except.error (ZenError.alreadyExists k), s, []) ∧
          get_provider s k = (Except.ok v1, s, [])) ∧
    (∀ (s : LocalService) (k : String) (t : UUIDSourceTuple)
        (a2 : BaseArtifactStore),
        dictLookup s.artifact_store_map k = some t →
        register_artifact_store s k a2 =
            (Except.error (ZenError.alreadyExists k), s, []) ∧
          get_artifact_store s k =
            (Except.ok (BaseArtifactStore.mk t.uuid t.source), s, [])) ∧
    (∀ (s : LocalService) (k : String) (t : UUIDSourceTuple)
        (m2 : BaseMetadataStore),
        dictLookup s.metadata_store_map k = some t →
        register_metadata_store s k m2 =
            (Except.error (ZenError.alreadyExists k), s, []) ∧
          get_metadata_store s k =
            (Except.ok (BaseMetadataStore.mk t.uuid t.source), s, [])) := by
  refine ⟨?_, ?_, ?_⟩
  · intro s k v1 v2 h
    exact ⟨register_provider_of_some v2 h, get_provider_of_some h⟩
  · intro s k t a2 h
    exact ⟨register_artifact_store_of_some a2 h, get_artifact_store_of_some h⟩
  · intro s k t m2 h
    exact ⟨register_metadata_store_of_some m2 h, get_metadata_store_of_some h⟩

/-- Witness for C1 at a one-provider registry. -/
theorem C1_witness :
    register_provider (LocalService.mk [("p", BaseProvider.mk 7)] [] [] [])
        "p" (BaseProvider.mk 9) =
      (Except.error (ZenError.alreadyExists "p"),
       LocalService.mk [("p", BaseProvider.mk 7)] [] [] [], []) ∧
    get_provider (LocalService.mk [("p", BaseProvider.mk 7)] [] [] []) "p" =
      (Except.ok (BaseProvider.mk 7),
       LocalService.mk [("p", BaseProvider.mk 7)] [] [] [], []) :=
  C1_register_existing_key_fails_unchanged.1
    (LocalService.mk [("p", BaseProvider.mk 7)] [] [] []) "p"
    (BaseProvider.mk 7) (BaseProvider.mk 9) (by decide)

/-- C2: for every key absent from a mapping, the get and delete
operations on that mapping fail with `DoesNotExistException` carrying the
offending key and the list of currently valid keys of that mapping, and
the registry state is unchanged — no silent default. -/
theorem C2_missing_key_get_delete_fail :
    (∀ (s : LocalService) (k : String),
        dictLookup s.providers k = none →
        get_provider s k =
            (Except.error (ZenError.doesNotExist k (dictKeys s.providers)),
             s, []) ∧
          delete_provider s k =
            (Except.error (ZenError.doesNotExist k (dictKeys s.providers)),
             s, [])) ∧
    (∀ (s : LocalService) (k : String),
        dictLookup s.artifact_store_map k = none →
        get_artifact_store s k =
            (Except.error
               (ZenError.doesNotExist k (dictKeys s.artifact_store_map)),
             s, []) ∧
          delete_artifact_store s k =
            (Except.error
               (ZenError.doesNotExist k (dictKeys s.artifact_store_map)),
             s, [])) ∧
    (∀ (s : LocalService) (k : String),
        dictLookup s.metadata_store_map k = none →
        get_metadata_store s k =
            (Except.error
               (ZenError.doesNotExist k (dictKeys s.metadata_store_map)),
             s, []) ∧
          delete_metadata_store s k =
            (Except.error
               (ZenError.doesNotExist k (dictKeys s.metadata_store_map)),
             s, [])) := by
  refine ⟨?_, ?_, ?_⟩
  · intro s k h
    exact ⟨get_provider_of_none h, delete_provider_of_none h⟩
  · intro s k h
    exact ⟨get_artifact_store_of_none h, delete_artifact_store_of_none h⟩
  · intro s k h
    exact ⟨get_metadata_store_of_none h, delete_metadata_store_of_none h⟩

/-- Witness for C2 on an empty registry: the reported valid-key set is
empty. -/
theorem C2_witness :
    get_provider (LocalService.mk [] [] [] []) "nope" =
      (Except.error (ZenError.doesNotExist "nope" []),
       LocalService.mk [] [] [] [], []) ∧
    delete_provider (LocalService.mk [] [] [] []) "nope" =
      (Except.error (ZenError.doesNotExist "nope" []),
       LocalService.mk [] [] [] [], []) :=
  C2_missing_key_get_delete_fail.1 (LocalService.mk [] [] [] []) "nope"
    (by decide)

/-- C3: for every key not yet registered, register succeeds and a
subsequent get of the key on the resulting state returns the registered
value — the provider itself, or for stores the instance resolved from the
stored (instance id, source locator) reference. -/
theorem C3_register_fresh_then_get :
    (∀ (s : LocalService) (k : String) (v : BaseProvider),
        dictLookup s.providers k = none →
        (register_provider s k v).1 = Except.ok () ∧
          (get_provider (register_provider s k v).2.1 k).1 = Except.ok v) ∧
    (∀ (s : LocalService) (k : String) (a : BaseArtifactStore),
        dictLookup s.artifact_store_map k = none →
        (register_artifact_store s k a).1 = Except.ok () ∧
          (get_artifact_store (register_artifact_store s k a).2.1 k).1 =
            Except.ok (BaseArtifactStore.mk a.uuid (resolve_class a.cls))) ∧
    (∀ (s : LocalService) (k : String) (m : BaseMetadataStore),
        dictLookup s.metadata_store_map k = none →
        (register_metadata_store s k m).1 = Except.ok () ∧
          (get_metadata_store (register_metadata_store s k m).2.1 k).1 =
            Except.ok (BaseMetadataStore.mk m.uuid (resolve_class m.cls))) := by
  refine ⟨?_, ?_, ?_⟩
  · intro s k v h
    rw [register_provider_of_none v h]
    refine ⟨rfl, ?_⟩
    have h2 : dictLookup
        ({ s with providers := dictSet s.providers k v } : LocalService).providers
        k = some v := dictLookup_dictSet_self s.providers k v
    rw [get_provider_of_some h2]
  · intro s k a h
    rw [register_artifact_store_of_none a h]
    refine ⟨rfl, ?_⟩
    have h2 : dictLookup
        ({ s with artifact_store_map :=
            dictSet s.artifact_store_map k (UUIDSourceTuple.mk a.uuid (resolve_class a.cls)) } :
          LocalService).artifact_store_map k =
        some (UUIDSourceTuple.mk a.uuid (resolve_class a.cls)) :=
      dictLookup_dictSet_self s.artifact_store_map k
        (UUIDSourceTuple.mk a.uuid (resolve_class a.cls))
    rw [get_artifact_store_of_some h2]
  · intro s k m h
    rw [register_metadata_store_of_none m h]
    refine ⟨rfl, ?_⟩
    have h2 : dictLookup
        ({ s with metadata_store_map :=
            dictSet s.metadata_store_map k (UUIDSourceTuple.mk m.uuid (resolve_class m.cls)) } :
          LocalService).metadata_store_map k =
        some (UUIDSourceTuple.mk m.uuid (resolve_class m.cls)) :=
      dictLookup_dictSet_self s.metadata_store_map k
        (UUIDSourceTuple.mk m.uuid (resolve_class m.cls))
    rw [get_metadata_store_of_some h2]

/-- Witness for C3: registering an artifact store under a fresh key on
the empty registry succeeds and gets back its resolved instance. -/
theorem C3_witness :
    (register_artifact_store (LocalService.mk [] [] [] []) "a1"
        (BaseArtifactStore.mk 2 "ArtifactStoreA")).1 = Except.ok () ∧
    (get_artifact_store
        (register_artifact_store (LocalService.mk [] [] [] []) "a1"
          (BaseArtifactStore.mk 2 "ArtifactStoreA")).2.1 "a1").1 =
      Except.ok (BaseArtifactStore.mk 2 "ArtifactStoreA") :=
  C3_register_fresh_then_get.2.1 (LocalService.mk [] [] [] []) "a1"
    (BaseArtifactStore.mk 2 "ArtifactStoreA") (by decide)

/-- C4: after a successful delete of a key, an immediately following
delete of the same key on the same mapping fails with
`DoesNotExistException` (raised by the existence check that `get`
performs), never silently succeeding. -/
theorem C4_second_delete_fails :
    (∀ (s : LocalService) (k : String) (u : Unit) (s2 : LocalService)
        (tr : List Effect),
        delete_provider s k = (Except.ok u, s2, tr) →
        delete_provider s2 k =
          (Except.error (ZenError.doesNotExist k (dictKeys s2.providers)),
           s2, [])) ∧
    (∀ (s : LocalService) (k : String) (u : Unit) (s2 : LocalService)
        (tr : List Effect),
        delete_artifact_store s k = (Except.ok u, s2, tr) →
        delete_artifact_store s2 k =
          (Except.error
             (ZenError.doesNotExist k (dictKeys s2.artifact_store_map)),
           s2, [])) ∧
    (∀ (s : LocalService) (k : String) (u : Unit) (s2 : LocalService)
        (tr : List Effect),
        delete_metadata_store s k = (Except.ok u, s2, tr) →
        delete_metadata_store s2 k =
          (Except.error
             (ZenError.doesNotExist k (dictKeys s2.metadata_store_map)),
           s2, [])) := by
  refine ⟨?_, ?_, ?_⟩
  · intro s k u s2 tr h
    cases hl : dictLookup s.providers k with
    | none => rw [delete_provider_of_none hl] at h; simp at h
    | some v =>
        rw [delete_provider_of_some hl] at h
        have hs : s2 = { s with providers := dictDelete s.providers k } := by
          have h2 := congrArg (fun x => x.2.1) h
          simpa using h2.symm
        subst hs
        exact delete_provider_of_none (dictLookup_dictDelete_self s.providers k)
  · intro s k u s2 tr h
    cases hl : dictLookup s.artifact_store_map k with
    | none => rw [delete_artifact_store_of_none hl] at h; simp at h
    | some t =>
        rw [delete_artifact_store_of_some hl] at h
        have hs : s2 =
            { s with artifact_store_map := dictDelete s.artifact_store_map k } := by
          have h2 := congrArg (fun x => x.2.1) h
          simpa using h2.symm
        subst hs
        exact delete_artifact_store_of_none
          (dictLookup_dictDelete_self s.artifact_store_map k)
  · intro s k u s2 tr h
    cases hl : dictLookup s.metadata_store_map k with
    | none => rw [delete_metadata_store_of_none hl] at h; simp at h
    | some t =>
        rw [delete_metadata_store_of_some hl] at h
        have hs : s2 =
            { s with metadata_store_map := dictDelete s.metadata_store_map k } := by
          have h2 := congrArg (fun x => x.2.1) h
          simpa using h2.symm
        subst hs
        exact delete_metadata_store_of_none
          (dictLookup_dictDelete_self s.metadata_store_map k)

/-- Witness for C4: delete a provider twice in a row on a one-provider
registry; the second delete fails with the empty valid-key set. -/
theorem C4_witness :
    delete_provider (LocalService.mk [] [] [] []) "p" =
      (Except.error (ZenError.doesNotExist "p" []),
       LocalService.mk [] [] [] [], []) :=
  C4_second_delete_fails.1
    (LocalService.mk [("p", BaseProvider.mk 1)] [] [] []) "p" ()
    (LocalService.mk [] [] [] []) [Effect.registryPersist] (by decide)

/-- The registry of the cascading-delete scenario: one metadata store
`m1` (instance id 1) and one artifact store `a1` (instance id 2). -/
def s_m1a1 : LocalService :=
  { providers := [],
    metadata_store_map := [("m1", UUIDSourceTuple.mk 1 "MetadataStoreA")],
    artifact_store_map := [("a1", UUIDSourceTuple.mk 2 "ArtifactStoreA")],
    orchestrator_map := [] }

/-- The world of the cascading-delete scenario: the `s_m1a1` registry is
live and persisted, and both components have backing storage. -/
def w0 : World :=
  { service := s_m1a1, persistedRecord := some s_m1a1,
    componentStorage := [1, 2] }

/-- C5 counterexample: the whole-registry teardown does not touch the
in-memory mappings, so on the live service a get for `m1` still succeeds
after delete-all — refuting the claim that afterwards no get on any
mapping succeeds for the registered keys. -/
theorem C5_counterexample :
    (get_metadata_store (run_delete_all w0).service "m1").1 =
      Except.ok (BaseMetadataStore.mk 1 "MetadataStoreA") := by decide

/-- C5 amended: with metadata store `m1` and artifact store `a1`
registered, delete-all destroys both components' backing storage and
removes the registry's own persisted record; the in-memory mappings are
not cleared, so entries stop being retrievable only through the reload
contract: the registry reloaded from the now-absent persisted record is
empty and every get on it fails. -/
theorem C5_delete_all_cascades (t1 t2 : UUIDSourceTuple) (w : World)
    (hm : w.service.metadata_store_map = [("m1", t1)])
    (ha : w.service.artifact_store_map = [("a1", t2)]) :
    (run_delete_all w).persistedRecord = none ∧
    t1.uuid ∉ (run_delete_all w).componentStorage ∧
    t2.uuid ∉ (run_delete_all w).componentStorage ∧
    ∀ k : String,
      (get_provider (reload (run_delete_all w)) k).1 =
          Except.error (ZenError.doesNotExist k []) ∧
      (get_artifact_store (reload (run_delete_all w)) k).1 =
          Except.error (ZenError.doesNotExist k []) ∧
      (get_metadata_store (reload (run_delete_all w)) k).1 =
          Except.error (ZenError.doesNotExist k []) := by
  have hw : run_delete_all w =
      { service := w.service, persistedRecord := none,
        componentStorage :=
          (w.componentStorage.filter (fun x => x ≠ t1.uuid)).filter
            (fun x => x ≠ t2.uuid) } := by
    simp [run_delete_all, delete, metadata_stores, artifact_stores,
      get_components_from_store, hm, ha, applyEffect]
  refine ⟨by rw [hw], ?_, ?_, ?_⟩
  · rw [hw]
    simp [List.mem_filter]
  · rw [hw]
    simp [List.mem_filter]
  · intro k
    rw [hw]
    refine ⟨?_, ?_, ?_⟩ <;>
      simp [reload, emptyService, get_provider, get_artifact_store,
        get_metadata_store, get_component_from_key, dictLookup, dictKeys]

/-- Witness for C5 (amended) at the concrete scenario world `w0`. -/
theorem C5_witness :
    (run_delete_all w0).persistedRecord = none ∧
    (1 : Nat) ∉ (run_delete_all w0).componentStorage ∧
    (2 : Nat) ∉ (run_delete_all w0).componentStorage ∧
    ∀ k : String,
      (get_provider (reload (run_delete_all w0)) k).1 =
          Except.error (ZenError.doesNotExist k []) ∧
      (get_artifact_store (reload (run_delete_all w0)) k).1 =
          Except.error (ZenError.doesNotExist k []) ∧
      (get_metadata_store (reload (run_delete_all w0)) k).1 =
          Except.error (ZenError.doesNotExist k []) :=
  C5_delete_all_cascades (UUIDSourceTuple.mk 1 "MetadataStoreA")
    (UUIDSourceTuple.mk 2 "ArtifactStoreA") w0 rfl rfl

/-- C6: the whole-registry teardown works in a fixed order — one
component-level delete per stored metadata store (in mapping order),
then one per stored artifact store, then the removal of the registry's
own persisted record; the in-memory state is untouched and no
orchestrator is cascaded (the orchestrator view is always empty,
whatever the orchestrator mapping holds). -/
theorem C6_delete_all_fixed_order (s : LocalService) :
    delete s =
      (s,
       s.metadata_store_map.map
           (fun kv => Effect.componentDelete kv.2.uuid kv.2.source)
         ++ s.artifact_store_map.map
             (fun kv => Effect.componentDelete kv.2.uuid kv.2.source)
         ++ [Effect.registryRecordDelete]) ∧
    orchestrators s = [] := by
  refine ⟨?_, rfl⟩
  simp only [delete, metadata_stores, artifact_stores,
    get_components_from_store, List.map_map]
  rfl

/-- C7: deleting a registered artifact or metadata store first invokes
the component's own `delete()` (destroying its backing storage), then
removes the key from the mapping, then re-persists the registry; deleting
a registered provider only removes the mapping entry and re-persists,
with no provider-level teardown in the trace. -/
theorem C7_delete_component_teardown_asymmetry :
    (∀ (s : LocalService) (k : String) (t : UUIDSourceTuple),
        dictLookup s.artifact_store_map k = some t →
        delete_artifact_store s k =
          (Except.ok (),
           { s with artifact_store_map := dictDelete s.artifact_store_map k },
           [Effect.componentDelete t.uuid t.source, Effect.registryPersist])) ∧
    (∀ (s : LocalService) (k : String) (t : UUIDSourceTuple),
        dictLookup s.metadata_store_map k = some t →
        delete_metadata_store s k =
          (Except.ok (),
           { s with metadata_store_map := dictDelete s.metadata_store_map k },
           [Effect.componentDelete t.uuid t.source, Effect.registryPersist])) ∧
    (∀ (s : LocalService) (k : String) (v : BaseProvider),
        dictLookup s.providers k = some v →
        delete_provider s k =
          (Except.ok (), { s with providers := dictDelete s.providers k },
           [Effect.registryPersist])) := by
  refine ⟨?_, ?_, ?_⟩
  · intro s k t h
    exact delete_artifact_store_of_some h
  · intro s k t h
    exact delete_metadata_store_of_some h
  · intro s k v h
    exact delete_provider_of_some h

/-- Witness for C7 at the two-store registry `s_m1a1` and a one-provider
registry. -/
theorem C7_witness :
    delete_artifact_store s_m1a1 "a1" =
      (Except.ok (),
       LocalService.mk []
         [("m1", UUIDSourceTuple.mk 1 "MetadataStoreA")] [] [],
       [Effect.componentDelete 2 "ArtifactStoreA", Effect.registryPersist]) ∧
    delete_provider (LocalService.mk [("p", BaseProvider.mk 3)] [] [] []) "p" =
      (Except.ok (), LocalService.mk [] [] [] [], [Effect.registryPersist]) :=
  ⟨C7_delete_component_teardown_asymmetry.1 s_m1a1 "a1"
     (UUIDSourceTuple.mk 2 "ArtifactStoreA") (by decide),
   C7_delete_component_teardown_asymmetry.2.2
     (LocalService.mk [("p", BaseProvider.mk 3)] [] [] []) "p"
     (BaseProvider.mk 3) (by decide)⟩

/-- C8: registering a fresh artifact or metadata store first triggers the
component's own `update()`, then records the (instance id, resolved
source locator) pair under the key, and finally re-persists the registry;
registering a fresh provider stores the value directly and re-persists.
In every trace the registry persist comes last. -/
theorem C8_register_effects :
    (∀ (s : LocalService) (k : String) (a : BaseArtifactStore),
        dictLookup s.artifact_store_map k = none →
        register_artifact_store s k a =
          (Except.ok (),
           { s with artifact_store_map :=
               dictSet s.artifact_store_map k (UUIDSourceTuple.mk a.uuid (resolve_class a.cls)) },
           [Effect.componentUpdate a.uuid a.cls, Effect.registryPersist])) ∧
    (∀ (s : LocalService) (k : String) (m : BaseMetadataStore),
        dictLookup s.metadata_store_map k = none →
        register_metadata_store s k m =
          (Except.ok (),
           { s with metadata_store_map :=
               dictSet s.metadata_store_map k (UUIDSourceTuple.mk m.uuid (resolve_class m.cls)) },
           [Effect.componentUpdate m.uuid m.cls, Effect.registryPersist])) ∧
    (∀ (s : LocalService) (k : String) (p : BaseProvider),
        dictLookup s.providers k = none →
        register_provider s k p =
          (Except.ok (), { s with providers := dictSet s.providers k p },
           [Effect.registryPersist])) := by
  refine ⟨?_, ?_, ?_⟩
  · intro s k a h
    exact register_artifact_store_of_none a h
  · intro s k m h
    exact register_metadata_store_of_none m h
  · intro s k p h
    exact register_provider_of_none p h

/-- Witness for C8: registering the scenario's two stores and a provider
on the empty registry. -/
theorem C8_witness :
    register_artifact_store (LocalService.mk [] [] [] []) "a1"
        (BaseArtifactStore.mk 2 "ArtifactStoreA") =
      (Except.ok (),
       LocalService.mk [] [] [("a1", UUIDSourceTuple.mk 2 "ArtifactStoreA")] [],
       [Effect.componentUpdate 2 "ArtifactStoreA", Effect.registryPersist]) ∧
    register_provider (LocalService.mk [] [] [] []) "p" (BaseProvider.mk 3) =
      (Except.ok (), LocalService.mk [("p", BaseProvider.mk 3)] [] [] [],
       [Effect.registryPersist]) :=
  ⟨C8_register_effects.1 (LocalService.mk [] [] [] []) "a1"
     (BaseArtifactStore.mk 2 "ArtifactStoreA") (by decide),
   C8_register_effects.2.2 (LocalService.mk [] [] [] []) "p"
     (BaseProvider.mk 3) (by decide)⟩

/-- C9: the three mappings are independent namespaces — registering or
deleting a key in one mapping leaves the other mappings (including the
orchestrator mapping) unchanged, whether the operation succeeds or fails,
and the same key string can be registered in all three mappings at once,
each get then answering from its own mapping. -/
theorem C9_mappings_independent :
    (∀ (s : LocalService) (k : String) (v : BaseProvider),
        (register_provider s k v).2.1.metadata_store_map =
            s.metadata_store_map ∧
          (register_provider s k v).2.1.artifact_store_map =
            s.artifact_store_map ∧
          (register_provider s k v).2.1.orchestrator_map =
            s.orchestrator_map) ∧
    (∀ (s : LocalService) (k : String),
        (delete_provider s k).2.1.metadata_store_map = s.metadata_store_map ∧
          (delete_provider s k).2.1.artifact_store_map =
            s.artifact_store_map ∧
          (delete_provider s k).2.1.orchestrator_map = s.orchestrator_map) ∧
    (∀ (s : LocalService) (k : String) (a : BaseArtifactStore),
        (register_artifact_store s k a).2.1.providers = s.providers ∧
          (register_artifact_store s k a).2.1.metadata_store_map =
            s.metadata_store_map ∧
          (register_artifact_store s k a).2.1.orchestrator_map =
            s.orchestrator_map) ∧
    (∀ (s : LocalService) (k : String),
        (delete_artifact_store s k).2.1.providers = s.providers ∧
          (delete_artifact_store s k).2.1.metadata_store_map =
            s.metadata_store_map ∧
          (delete_artifact_store s k).2.1.orchestrator_map =
            s.orchestrator_map) ∧
    (∀ (s : LocalService) (k : String) (m : BaseMetadataStore),
        (register_metadata_store s k m).2.1.providers = s.providers ∧
          (register_metadata_store s k m).2.1.artifact_store_map =
            s.artifact_store_map ∧
          (register_metadata_store s k m).2.1.orchestrator_map =
            s.orchestrator_map) ∧
    (∀ (s : LocalService) (k : String),
        (delete_metadata_store s k).2.1.providers = s.providers ∧
          (delete_metadata_store s k).2.1.artifact_store_map =
            s.artifact_store_map ∧
          (delete_metadata_store s k).2.1.orchestrator_map =
            s.orchestrator_map) ∧
    (∀ (s : LocalService) (k : String) (p : BaseProvider)
        (a : BaseArtifactStore) (m : BaseMetadataStore),
        dictLookup s.providers k = none →
        dictLookup s.artifact_store_map k = none →
        dictLookup s.metadata_store_map k = none →
        (get_provider
            (register_metadata_store
              (register_artifact_store (register_provider s k p).2.1 k a).2.1
              k m).2.1 k).1 = Except.ok p ∧
          (get_artifact_store
              (register_metadata_store
                (register_artifact_store (register_provider s k p).2.1 k a).2.1
                k m).2.1 k).1 =
            Except.ok (BaseArtifactStore.mk a.uuid (resolve_class a.cls)) ∧
          (get_metadata_store
              (register_metadata_store
                (register_artifact_store (register_provider s k p).2.1 k a).2.1
                k m).2.1 k).1 =
            Except.ok (BaseMetadataStore.mk m.uuid (resolve_class m.cls))) := by
  refine ⟨?_, ?_, ?_, ?_, ?_, ?_, ?_⟩
  · intro s k v
    by_cases h : dictContains s.providers k <;> simp [register_provider, h]
  · intro s k
    cases hl : dictLookup s.providers k <;>
      simp [delete_provider, get_provider, hl]
  · intro s k a
    by_cases h : dictContains s.artifact_store_map k <;>
      simp [register_artifact_store, h]
  · intro s k
    cases hl : dictLookup s.artifact_store_map k <;>
      simp [delete_artifact_store, get_artifact_store, get_component_from_key,
        hl]
  · intro s k m
    by_cases h : dictContains s.metadata_store_map k <;>
      simp [register_metadata_store, h]
  · intro s k
    cases hl : dictLookup s.metadata_store_map k <;>
      simp [delete_metadata_store, get_metadata_store, get_component_from_key,
        hl]
  · intro s k p a m hp ha hm
    refine ⟨?_, ?_, ?_⟩ <;>
      simp [register_provider, register_artifact_store,
        register_metadata_store, get_provider, get_artifact_store,
        get_metadata_store, dictContains, get_component_from_key, hp, ha, hm,
        dictLookup_dictSet_self, resolve_class]

/-- Witness for C9: the same key `"k"` registered as provider, artifact
store, and metadata store on the empty registry; each get answers from
its own mapping. -/
theorem C9_witness :
    (get_provider
        (register_metadata_store
          (register_artifact_store
            (register_provider (LocalService.mk [] [] [] []) "k"
              (BaseProvider.mk 5)).2.1 "k" (BaseArtifactStore.mk 2 "A")).2.1
          "k" (BaseMetadataStore.mk 1 "M")).2.1 "k").1 =
      Except.ok (BaseProvider.mk 5) ∧
    (get_artifact_store
        (register_metadata_store
          (register_artifact_store
            (register_provider (LocalService.mk [] [] [] []) "k"
              (BaseProvider.mk 5)).2.1 "k" (BaseArtifactStore.mk 2 "A")).2.1
          "k" (BaseMetadataStore.mk 1 "M")).2.1 "k").1 =
      Except.ok (BaseArtifactStore.mk 2 "A") ∧
    (get_metadata_store
        (register_metadata_store
          (register_artifact_store
            (register_provider (LocalService.mk [] [] [] []) "k"
              (BaseProvider.mk 5)).2.1 "k" (BaseArtifactStore.mk 2 "A")).2.1
          "k" (BaseMetadataStore.mk 1 "M")).2.1 "k").1 =
      Except.ok (BaseMetadataStore.mk 1 "M") :=
  C9_mappings_independent.2.2.2.2.2.2 (LocalService.mk [] [] [] []) "k"
    (BaseProvider.mk 5) (BaseArtifactStore.mk 2 "A")
    (BaseMetadataStore.mk 1 "M") rfl rfl rfl

/-- C10: every get operation is a pure read at the registry level —
whether it succeeds or fails, it returns the registry state unchanged and
an empty effect trace, so in particular it never triggers a registry
re-persist. -/
theorem C10_get_is_pure (s : LocalService) (k : String) :
    (get_provider s k).2 = (s, []) ∧
    (get_artifact_store s k).2 = (s, []) ∧
    (get_metadata_store s k).2 = (s, []) := by
  refine ⟨?_, ?_, ?_⟩
  · cases hl : dictLookup s.providers k <;> simp [get_provider, hl]
  · cases hl :
      get_component_from_key BaseArtifactStore.mk k s.artifact_store_map <;>
      simp [get_artifact_store, hl]
  · cases hl :
      get_component_from_key BaseMetadataStore.mk k s.metadata_store_map <;>
      simp [get_metadata_store, hl]

end Zenml
